import Mathlib

/-!
Verification of the interrupt/timer dispatch framework of `src/main.cpp`
(a linear-regression demo for an AVR-style microcontroller).

The program is modelled as effect traces: each routine of `main.cpp` is
embedded as a Lean function returning the list of side effects it performs,
in source order.  The excluded collaborators (`adc`, `serial`, `ml::LinReg`)
are abstracted: the training result is a Boolean parameter `trainOk` and the
rounded prediction printed for training input `i` is an abstract `pred i`.
A small event-step semantics over the interrupt-masking state captures the
debounce handshake.
-/

namespace MainProg

/-- The watchdog timeout buckets of `watchdog::Timeout` used by the program
(`Timeout1024ms` at `main.cpp:129`); the remaining enumerators are collapsed
into `other` since the program never mentions them. -/
inductive Timeout where
  | timeout1024ms
  | other
  deriving DecidableEq

/-- One observable side effect of the program, in the order the source
performs them.  Constructors correspond one-to-one to the calls appearing in
`main.cpp`. -/
inductive Effect where
  | adcInit
  | serialInit
  | linRegTrain (iterations : Nat) (ok : Bool)
  | errorLedSet
  | serialPrintStr (s : String)
  | serialPrintInt (v : Int)
  | addCallbackButton
  | addCallbackDebounceTimer
  | addCallbackPredictionTimer
  | enableInterruptButton
  | watchdogInit (t : Timeout)
  | watchdogEnableSystemReset
  | watchdogReset
  | disableInterruptsOnIoPort
  | debounceTimerStart
  | debounceTimerStop
  | enableInterruptsOnIoPort
  | readButton (level : Bool)
  deriving DecidableEq

/-- `buttonCallback` (`main.cpp:59-69`): disables pin-change interrupts on
the button's I/O port, starts the debounce timer, then reads the button pin.
The `if (predictionButton.read())` branch body contains only comments, hence
the trailing `if` contributes no effects on either outcome. -/
def buttonCallback (level : Bool) : List Effect :=
  [Effect.disableInterruptsOnIoPort, Effect.debounceTimerStart,
   Effect.readButton level] ++ (if level then [] else [])

/-- `debounceTimerCallback` (`main.cpp:75-79`): stops the debounce timer and
re-enables pin-change interrupts on the button's I/O port. -/
def debounceTimerCallback : List Effect :=
  [Effect.debounceTimerStop, Effect.enableInterruptsOnIoPort]

/-- `predictionTimerCallback` (`main.cpp:84-87`): the body holds only a
comment, so the callback performs no effect. -/
def predictionTimerCallback : List Effect := []

/-- Number of training inputs in the `trainingInput` vector
(`main.cpp:100`): eleven values 0.0 … 1.0. -/
def trainingInputCount : Nat := 11

/-- The prediction-print loop of `setup` (`main.cpp:114-122`): for each
training input the rounded prediction `pred i` is printed. -/
def predictionPrints (pred : Nat → Int) : List Effect :=
  (List.range trainingInputCount).map (fun i => Effect.serialPrintInt (pred i))

/-- `setup` (`main.cpp:93-131`): ADC and serial init, train the regression
model; on failure set the error LED, print a diagnostic and return early;
on success print the predictions, register the three callbacks, enable the
button's pin-change interrupt, then initialise the watchdog with the 1024 ms
bucket and enable system-reset mode. -/
def setup (trainOk : Bool) (pred : Nat → Int) : List Effect :=
  [Effect.adcInit, Effect.serialInit, Effect.linRegTrain 100 trainOk] ++
  (if trainOk then
    predictionPrints pred ++
    [Effect.addCallbackButton, Effect.addCallbackDebounceTimer,
     Effect.addCallbackPredictionTimer, Effect.enableInterruptButton,
     Effect.watchdogInit Timeout.timeout1024ms,
     Effect.watchdogEnableSystemReset]
  else
    [Effect.errorLedSet, Effect.serialPrintStr "Training failed!\n"])

/-- The body of the `while (1)` loop in `main` (`main.cpp:145-148`): a single
unconditional `watchdog::reset()` call and nothing else. -/
def loopBody : List Effect := [Effect.watchdogReset]

/-- The trace of `main` (`main.cpp:141-150`) truncated after `n` iterations
of the infinite loop: `setup` followed by `n` executions of the loop body. -/
def mainTrace (trainOk : Bool) (pred : Nat → Int) (n : Nat) : List Effect :=
  setup trainOk pred ++ (List.replicate n loopBody).flatten

/-- Recogniser for watchdog-initialisation effects (any timeout bucket). -/
def isWatchdogInit : Effect → Bool
  | Effect.watchdogInit _ => true
  | _ => false

/-- The interrupt-masking state relevant to the debounce handshake:
whether pin-change interrupts are enabled on the button's I/O port and
whether the debounce timer is running. -/
structure SysState where
  portInterruptsEnabled : Bool
  debounceRunning : Bool
  deriving DecidableEq

/-- Interpretation of one effect on the interrupt-masking state. -/
def applyEffect (s : SysState) : Effect → SysState
  | Effect.disableInterruptsOnIoPort => { s with portInterruptsEnabled := false }
  | Effect.enableInterruptsOnIoPort => { s with portInterruptsEnabled := true }
  | Effect.debounceTimerStart => { s with debounceRunning := true }
  | Effect.debounceTimerStop => { s with debounceRunning := false }
  | _ => s

/-- Interpretation of a list of effects, left to right. -/
def applyEffects (s : SysState) (es : List Effect) : SysState :=
  es.foldl applyEffect s

/-- Hardware events that can dispatch a callback at run time. -/
inductive Event where
  | buttonEdge (level : Bool)
  | debounceElapse
  | predictionElapse
  deriving DecidableEq

/-- One hardware event: the corresponding callback runs only when its
source is live (port interrupts enabled for the button; timer running for
the debounce elapse).  Returns the next state and the effects emitted. -/
def step (s : SysState) : Event → SysState × List Effect
  | Event.buttonEdge level =>
      if s.portInterruptsEnabled then
        (applyEffects s (buttonCallback level), buttonCallback level)
      else (s, [])
  | Event.debounceElapse =>
      if s.debounceRunning then
        (applyEffects s debounceTimerCallback, debounceTimerCallback)
      else (s, [])
  | Event.predictionElapse =>
      (applyEffects s predictionTimerCallback, predictionTimerCallback)

/-- Run a sequence of hardware events from a state, collecting the emitted
effects. -/
def run (s : SysState) : List Event → SysState × List Effect
  | [] => (s, [])
  | ev :: evs =>
      let p := step s ev
      let q := run p.1 evs
      (q.1, p.2 ++ q.2)

/-- The routines making up the program: the three callbacks, `setup`
(parametrised by the training outcome and the abstract predictions) and one
iteration of the main loop. -/
inductive Routine where
  | buttonCb (level : Bool)
  | debounceCb
  | predictionCb
  | setupRoutine (trainOk : Bool) (pred : Nat → Int)
  | loopIteration

/-- The effect trace of each routine. -/
def routineTrace : Routine → List Effect
  | Routine.buttonCb level => buttonCallback level
  | Routine.debounceCb => debounceTimerCallback
  | Routine.predictionCb => predictionTimerCallback
  | Routine.setupRoutine trainOk pred => setup trainOk pred
  | Routine.loopIteration => loopBody

/-- The flattened trace of `n` iterations of the main loop is exactly `n`
watchdog-reset effects. -/
theorem flatten_replicate_loopBody (n : Nat) :
    (List.replicate n loopBody).flatten = List.replicate n Effect.watchdogReset := by
  induction n with
  | zero => rfl
  | succ k ih => simp [List.replicate_succ, ih, loopBody]

/-- Claim C1: every iteration of the main loop after setup invokes the
watchdog servicing primitive unconditionally, and the loop body performs no
other action: the trace of `main` after `n` iterations is the setup trace
followed by exactly `n` watchdog-reset effects, one per iteration, and one
iteration's trace is exactly the single reset. -/
theorem watchdog_serviced_every_iteration (trainOk : Bool) (pred : Nat → Int)
    (n : Nat) :
    mainTrace trainOk pred n =
      setup trainOk pred ++ List.replicate n Effect.watchdogReset ∧
    loopBody = [Effect.watchdogReset] := by
  constructor
  · unfold mainTrace
    rw [flatten_replicate_loopBody]
  · rfl

/-- Claim C2: on every invocation of the button callback the side effects
are, in order: disable interrupts on the button's I/O port, start the
debounce timer, read the pin's level. -/
theorem buttonCallback_effect_order (level : Bool) :
    buttonCallback level =
      [Effect.disableInterruptsOnIoPort, Effect.debounceTimerStart,
       Effect.readButton level] := by
  cases level <;> rfl

/-- Claim C3: the debounce timer's elapse callback stops the debounce timer
and then re-enables interrupts on the button's I/O port, in that order, and
performs nothing else. -/
theorem debounceTimerCallback_effects :
    debounceTimerCallback =
      [Effect.debounceTimerStop, Effect.enableInterruptsOnIoPort] := rfl

/-- Claim C4 (code evaluation at the failing input): the periodic
60-second timer's callback performs no effect at all — in particular it
does not invoke the temperature-prediction trigger, contradicting the
source's own doc comment above `predictionTimerCallback`. -/
theorem predictionTimerCallback_is_noop : predictionTimerCallback = [] := rfl

/-- Claim C5 (code evaluation at the failing input): when the pin read
reports a press, the button callback's trace is only the masking handshake
and the read itself — the press branch of the source is empty (comments
only), so no higher-level action is dispatched. -/
theorem buttonCallback_press_no_dispatch :
    buttonCallback true =
      [Effect.disableInterruptsOnIoPort, Effect.debounceTimerStart,
       Effect.readButton true] := rfl

/-- Claim C6: when training fails, `setup` sets the error LED, prints the
diagnostic and returns immediately: its whole trace is exactly these five
effects, so no callback is registered, no interrupt is enabled, the
watchdog is never initialised and training runs exactly once. -/
theorem setup_aborts_on_training_failure (pred : Nat → Int) :
    setup false pred =
      [Effect.adcInit, Effect.serialInit, Effect.linRegTrain 100 false,
       Effect.errorLedSet, Effect.serialPrintStr "Training failed!\n"] := rfl

/-- Claim C7: in the successful setup path the trace splits so that all
three callback registrations happen strictly before the interrupt enable:
the earlier segment contains every registration and no interrupt enable,
the later segment contains the interrupt enable and no registration. -/
theorem callbacks_registered_before_interrupt_enable (pred : Nat → Int) :
    ∃ pre post, setup true pred = pre ++ post ∧
      Effect.addCallbackButton ∈ pre ∧
      Effect.addCallbackDebounceTimer ∈ pre ∧
      Effect.addCallbackPredictionTimer ∈ pre ∧
      Effect.enableInterruptButton ∈ post ∧
      (∀ e ∈ post, e ≠ Effect.addCallbackButton ∧
        e ≠ Effect.addCallbackDebounceTimer ∧
        e ≠ Effect.addCallbackPredictionTimer) ∧
      (∀ e ∈ pre, e ≠ Effect.enableInterruptButton) := by
  refine ⟨[Effect.adcInit, Effect.serialInit, Effect.linRegTrain 100 true] ++
      predictionPrints pred ++
      [Effect.addCallbackButton, Effect.addCallbackDebounceTimer,
       Effect.addCallbackPredictionTimer],
    [Effect.enableInterruptButton, Effect.watchdogInit Timeout.timeout1024ms,
     Effect.watchdogEnableSystemReset], ?_, ?_, ?_, ?_, ?_, ?_, ?_⟩
  · simp [setup]
  · simp
  · simp
  · simp
  · simp
  · intro e he
    refine ⟨?_, ?_, ?_⟩ <;> (intro h; subst h; simp at he)
  · intro e he h
    subst h
    simp [predictionPrints] at he

/-- Witness for claim C7: the split exists at the concrete prediction
function that maps every input to zero. -/
theorem callbacks_registered_before_interrupt_enable_witness :
    ∃ pre post, setup true (fun _ => 0) = pre ++ post ∧
      Effect.addCallbackButton ∈ pre ∧
      Effect.addCallbackDebounceTimer ∈ pre ∧
      Effect.addCallbackPredictionTimer ∈ pre ∧
      Effect.enableInterruptButton ∈ post ∧
      (∀ e ∈ post, e ≠ Effect.addCallbackButton ∧
        e ≠ Effect.addCallbackDebounceTimer ∧
        e ≠ Effect.addCallbackPredictionTimer) ∧
      (∀ e ∈ pre, e ≠ Effect.enableInterruptButton) :=
  callbacks_registered_before_interrupt_enable (fun _ => 0)

/-- In a state with port interrupts masked, any event sequence that does not
contain the debounce timer's elapse leaves the state unchanged and emits no
effect. -/
theorem run_masked (s : SysState) (evs : List Event)
    (hs : s.portInterruptsEnabled = false)
    (hevs : Event.debounceElapse ∉ evs) :
    run s evs = (s, []) := by
  induction evs generalizing s with
  | nil => rfl
  | cons ev rest ih =>
    have hev : ev ≠ Event.debounceElapse := by
      intro h
      exact hevs (h ▸ List.mem_cons_self _ _)
    have hrest : Event.debounceElapse ∉ rest :=
      fun h => hevs (List.mem_cons_of_mem _ h)
    cases ev with
    | buttonEdge level =>
      simp [run, step, hs, ih s hs hrest]
    | debounceElapse => exact absurd rfl hev
    | predictionElapse =>
      simp [run, step, applyEffects, predictionTimerCallback, ih s hs hrest]

/-- Claim C8: exclusive coupling of the debounce handshake.  Among all the
program's routines, only the button callback starts the debounce timer and
only the debounce timer's callback re-enables port interrupts; consequently,
after a button edge fires from the idle state, any event sequence without
the debounce elapse leaves port interrupts disabled and dispatches no
further effect at all. -/
theorem debounce_exclusive_coupling :
    (∀ r : Routine, Effect.debounceTimerStart ∈ routineTrace r →
      ∃ level, r = Routine.buttonCb level) ∧
    (∀ r : Routine, Effect.enableInterruptsOnIoPort ∈ routineTrace r →
      r = Routine.debounceCb) ∧
    (∀ (level : Bool) (evs : List Event), Event.debounceElapse ∉ evs →
      (run (step (SysState.mk true false) (Event.buttonEdge level)).1
          evs).1.portInterruptsEnabled = false ∧
      (run (step (SysState.mk true false) (Event.buttonEdge level)).1
          evs).2 = []) := by
  refine ⟨?_, ?_, ?_⟩
  · intro r h
    cases r with
    | buttonCb level => exact ⟨level, rfl⟩
    | debounceCb => simp [routineTrace, debounceTimerCallback] at h
    | predictionCb => simp [routineTrace, predictionTimerCallback] at h
    | setupRoutine trainOk pred =>
      cases trainOk <;> simp [routineTrace, setup, predictionPrints] at h
    | loopIteration => simp [routineTrace, loopBody] at h
  · intro r h
    cases r with
    | buttonCb level =>
      cases level <;> simp [routineTrace, buttonCallback] at h
    | debounceCb => rfl
    | predictionCb => simp [routineTrace, predictionTimerCallback] at h
    | setupRoutine trainOk pred =>
      cases trainOk <;> simp [routineTrace, setup, predictionPrints] at h
    | loopIteration => simp [routineTrace, loopBody] at h
  · intro level evs hevs
    have hstep : (step (SysState.mk true false) (Event.buttonEdge level)).1 =
        SysState.mk false true := by
      cases level <;> rfl
    rw [hstep, run_masked (SysState.mk false true) evs rfl hevs]
    exact ⟨rfl, rfl⟩

/-- Witness for claim C8: each conjunct applied at a concrete input —
the button callback at a press, the debounce callback, and a post-press
event sequence holding a prediction elapse and a second button edge. -/
theorem debounce_exclusive_coupling_witness :
    (∃ level, Routine.buttonCb true = Routine.buttonCb level) ∧
    Routine.debounceCb = Routine.debounceCb ∧
    (run (step (SysState.mk true false) (Event.buttonEdge true)).1
        [Event.predictionElapse, Event.buttonEdge false]).1.portInterruptsEnabled
      = false ∧
    (run (step (SysState.mk true false) (Event.buttonEdge true)).1
        [Event.predictionElapse, Event.buttonEdge false]).2 = [] := by
  refine ⟨?_, ?_, ?_, ?_⟩
  · exact debounce_exclusive_coupling.1 (Routine.buttonCb true) (by decide)
  · exact debounce_exclusive_coupling.2.1 Routine.debounceCb (by decide)
  · exact (debounce_exclusive_coupling.2.2 true
      [Event.predictionElapse, Event.buttonEdge false] (by decide)).1
  · exact (debounce_exclusive_coupling.2.2 true
      [Event.predictionElapse, Event.buttonEdge false] (by decide)).2

/-- Claim C9: in the successful setup path the watchdog is initialised
exactly once, with the 1024 ms bucket, immediately followed by
`enableSystemReset`, and both happen at the end of setup, before the main
loop's servicing iterations begin. -/
theorem watchdog_armed_once_before_loop (pred : Nat → Int) (n : Nat) :
    (∃ pre, setup true pred =
        pre ++ [Effect.watchdogInit Timeout.timeout1024ms,
                Effect.watchdogEnableSystemReset] ∧
      pre.countP isWatchdogInit = 0) ∧
    (setup true pred).countP isWatchdogInit = 1 ∧
    mainTrace true pred n =
      setup true pred ++ List.replicate n Effect.watchdogReset := by
  refine ⟨⟨[Effect.adcInit, Effect.serialInit, Effect.linRegTrain 100 true] ++
      predictionPrints pred ++
      [Effect.addCallbackButton, Effect.addCallbackDebounceTimer,
       Effect.addCallbackPredictionTimer, Effect.enableInterruptButton],
      ?_, ?_⟩, ?_, ?_⟩
  · simp [setup]
  · simp [predictionPrints, isWatchdogInit, List.countP_map]
  · simp [setup, predictionPrints, isWatchdogInit, List.countP_append,
      List.countP_map, List.countP_cons]
  · unfold mainTrace
    rw [flatten_replicate_loopBody]

/-- Claim C10: when training fails, `main` still enters the infinite loop
and services the watchdog every iteration, yet the watchdog was never
initialised and system-reset mode was never enabled — the trace holds no
watchdog-init and no enable-system-reset effect, and exactly `n` resets
after `n` iterations. -/
theorem training_failure_leaves_watchdog_unarmed (pred : Nat → Int) (n : Nat) :
    mainTrace false pred n =
      [Effect.adcInit, Effect.serialInit, Effect.linRegTrain 100 false,
       Effect.errorLedSet, Effect.serialPrintStr "Training failed!\n"] ++
      List.replicate n Effect.watchdogReset ∧
    (mainTrace false pred n).countP isWatchdogInit = 0 ∧
    (mainTrace false pred n).count Effect.watchdogEnableSystemReset = 0 ∧
    (mainTrace false pred n).count Effect.watchdogReset = n := by
  have hshape : mainTrace false pred n =
      [Effect.adcInit, Effect.serialInit, Effect.linRegTrain 100 false,
       Effect.errorLedSet, Effect.serialPrintStr "Training failed!\n"] ++
      List.replicate n Effect.watchdogReset := by
    unfold mainTrace
    rw [flatten_replicate_loopBody]
    rfl
  refine ⟨hshape, ?_, ?_, ?_⟩
  · rw [hshape]
    simp [isWatchdogInit, List.countP_append, List.countP_cons]
  · rw [hshape]
    simp [List.count_append, List.count_replicate, List.count_cons]
  · rw [hshape]
    simp [List.count_append, List.count_replicate, List.count_cons]

end MainProg
